import Mathlib

/-!
Shallow embedding of the RSA key module of the jwtk crate (`src/rsa.rs`),
together with the small pieces of the surrounding crate (`Error`, `Result`,
`Jwk`, the base64url configuration) that `src/rsa.rs` uses, and an abstract
interface for the external OpenSSL primitives that the crate treats as a
black box.  Machine integers do not occur in the embedded fragment except
for the RSA modulus bit length, which is compared against 2048 only, so
byte strings are modelled as `List Nat` and bit lengths as `Nat`.
-/

/-- Modelled from the spec: the crate error type (defined in the crate root,
which is not part of the provided sources).  The spec's error taxonomy names
`UnsupportedOrInvalidKey`, `VerificationError`, and an underlying-library
passthrough kind; `rsa.rs` itself constructs the first two, and every
`?` on an OpenSSL call surfaces as the passthrough kind.  The payload of
`OpenSsl` stands for an opaque OpenSSL error stack. -/
inductive Error where
  | UnsupportedOrInvalidKey : Error
  | VerificationError : Error
  | OpenSsl : Nat → Error
deriving DecidableEq, Repr

/-- Modelled from the spec: `Result<T>` in the crate root is `Result<T, Error>`. -/
abbrev Result (α : Type) : Type := Except Error α

/-- RSA signature algorithms (the `RsaAlgorithm` enum of `src/rsa.rs`). -/
inductive RsaAlgorithm where
  | RS256 | RS384 | RS512 | PS256 | PS384 | PS512
deriving DecidableEq, Repr

/-- The message digests used by the RSA algorithms (`openssl::hash::MessageDigest`,
restricted to the constructors `rsa.rs` uses). -/
inductive MessageDigest where
  | sha256 | sha384 | sha512
deriving DecidableEq, Repr

/-- RSA padding modes used by `rsa.rs` (`openssl::rsa::Padding`): the default
PKCS#1 v1.5 padding of a fresh `Signer`/`Verifier`, and `PKCS1_PSS`. -/
inductive Padding where
  | pkcs1 | pkcs1Pss
deriving DecidableEq, Repr

/-- `openssl::sign::RsaPssSaltlen`, restricted to the one value `rsa.rs` uses. -/
inductive RsaPssSaltlen where
  | digestLength
deriving DecidableEq, Repr

def RsaAlgorithm.is_pss : RsaAlgorithm → Bool
  | .PS256 | .PS384 | .PS512 => true
  | _ => false

def RsaAlgorithm.digest : RsaAlgorithm → MessageDigest
  | .RS256 | .PS256 => MessageDigest.sha256
  | .RS384 | .PS384 => MessageDigest.sha384
  | .RS512 | .PS512 => MessageDigest.sha512

def RsaAlgorithm.name : RsaAlgorithm → String
  | .RS256 => "RS256"
  | .RS384 => "RS384"
  | .RS512 => "RS512"
  | .PS256 => "PS256"
  | .PS384 => "PS384"
  | .PS512 => "PS512"

/-- `RsaAlgorithm::from_name`.  A Rust `match` on a `&str` is a sequence of
equality tests against the literal patterns, with the wildcard arm returning
`Err(Error::UnsupportedOrInvalidKey)`. -/
def RsaAlgorithm.from_name (name : String) : Result RsaAlgorithm :=
  if name = "RS256" then Except.ok RsaAlgorithm.RS256
  else if name = "RS384" then Except.ok RsaAlgorithm.RS384
  else if name = "RS512" then Except.ok RsaAlgorithm.RS512
  else if name = "PS256" then Except.ok RsaAlgorithm.PS256
  else if name = "PS384" then Except.ok RsaAlgorithm.PS384
  else if name = "PS512" then Except.ok RsaAlgorithm.PS512
  else Except.error Error.UnsupportedOrInvalidKey

/-- The public components of an `openssl::rsa::Rsa` key handle, as `rsa.rs`
observes them: `n().to_vec()` and `e().to_vec()` are big-endian byte strings. -/
structure Rsa where
  n : List Nat
  e : List Nat
deriving DecidableEq, Repr

/-- An `openssl::pkey::PKey` handle.  `rsa.rs` only ever asks a `PKey` for its
RSA part (`pkey.rsa()`), which fails on a key of another family (e.g. an EC
key), so a `PKey` is modelled by that observation: `some r` for an RSA key
with components `r`, `none` for a key of any other family. -/
structure PKeyData where
  rsaPart : Option Rsa
deriving DecidableEq, Repr

/-- `pkey.rsa()`: extract the RSA part of a `PKey`, failing with an OpenSSL
error-stack error on a non-RSA key. -/
def pkeyRsa (p : PKeyData) : Result Rsa :=
  match p.rsaPart with
  | some r => Except.ok r
  | none => Except.error (Error.OpenSsl 0)

/-- The configuration a `Signer`/`Verifier` (an OpenSSL pkey context) carries
when `rsa.rs` finally invokes the one-shot primitive on it: the digest it was
created with, the padding and salt length set afterwards, and the key. -/
structure CtxCfg where
  digest : MessageDigest
  padding : Padding
  saltlen : Option RsaPssSaltlen
  key : PKeyData
deriving DecidableEq, Repr

/-- The context configuration `rsa.rs` always builds for algorithm `a`:
`Signer::new`/`Verifier::new` with `a.digest()` leaves the default PKCS#1
padding; when `a.is_pss()` the code sets `PKCS1_PSS` padding and
`DIGEST_LENGTH` salt length. -/
def ctxConfig (a : RsaAlgorithm) (key : PKeyData) : CtxCfg :=
  if a.is_pss then
    { digest := a.digest, padding := Padding.pkcs1Pss,
      saltlen := some RsaPssSaltlen.digestLength, key := key }
  else
    { digest := a.digest, padding := Padding.pkcs1, saltlen := none, key := key }

/-- Modelled from the spec: the external cryptography library (OpenSSL) that
the crate treats as a capability-typed black box (`Digest`, `Sign`,
`VerifyOneshot`, `GenerateKeyPair`), restricted to the calls `rsa.rs` makes.
Every field is one fallible OpenSSL entry point; an `Except.error` models the
call returning an `ErrorStack`, which the Rust `?` operator propagates. -/
structure Ssl where
  /-- `Verifier::new(digest, pkey)` (fallibility only; the configuration it
  accumulates is tracked by `ctxConfig`). -/
  verifierNew : MessageDigest → PKeyData → Result Unit
  /-- `ctx.set_rsa_padding(padding)`. -/
  setRsaPadding : Padding → Result Unit
  /-- `ctx.set_rsa_pss_saltlen(len)`. -/
  setRsaPssSaltlen : RsaPssSaltlen → Result Unit
  /-- `verifier.verify_oneshot(sig, v)` on a context configured as `cfg`. -/
  verifyOneshot : CtxCfg → List Nat → List Nat → Result Bool
  /-- `Signer::new(digest, pkey)`. -/
  signerNew : MessageDigest → PKeyData → Result Unit
  /-- `signer.update(v)`. -/
  signerUpdate : List Nat → Result Unit
  /-- `signer.sign_to_vec()` on a context configured as `cfg` after `update(v)`. -/
  signToVec : CtxCfg → List Nat → Result (List Nat)
  /-- `Rsa::generate(bits)`. -/
  generateRsa : Nat → Result Rsa
  /-- `PKey::from_rsa(rsa)`. -/
  pkeyFromRsa : Rsa → Result PKeyData
  /-- `rsa.check_key()`: OpenSSL's RSA key-consistency check. -/
  checkKey : Rsa → Result Bool
  /-- `PKey::private_key_from_pem(pem)`. -/
  privateKeyFromPem : String → Result PKeyData
  /-- `PKey::public_key_from_pem(pem)`: the SubjectPublicKeyInfo parser. -/
  publicKeyFromPem : String → Result PKeyData
  /-- `Rsa::public_key_from_pem_pkcs1(pem)`: the PKCS#1 parser. -/
  publicKeyFromPemPkcs1 : String → Result Rsa
  /-- `pkey.public_key_to_pem()`: SubjectPublicKeyInfo export. -/
  publicKeyToPem : PKeyData → Result String

/-- `needle.isPrefixOf` at some position of the haystack: Rust's
`str::contains(needle)` substring test, on character lists. -/
def containsSub (needle : List Char) : List Char → Bool
  | [] => needle.isEmpty
  | c :: t => needle.isPrefixOf (c :: t) || containsSub needle t

/-- The dispatch test of the public-key importers:
`std::str::from_utf8(pem).map_or(false, |pem| pem.contains("BEGIN RSA"))`.
PEM input is modelled as text (`String`), per the spec's description of PEM
as standard text blocks, so the UTF-8 decoding step always succeeds. -/
def containsBeginRsa (pem : String) : Bool :=
  containsSub "BEGIN RSA".toList pem.toList

/-- RSA private key (`RsaPrivateKey` of `src/rsa.rs`). -/
structure RsaPrivateKey where
  private_key : PKeyData
  algorithm : RsaAlgorithm
deriving DecidableEq, Repr

/-- RSA public key bound to one algorithm (`RsaPublicKey` of `src/rsa.rs`). -/
structure RsaPublicKey where
  public_key : PKeyData
  algorithm : RsaAlgorithm
deriving DecidableEq, Repr

/-- RSA public key that can verify signatures generated by any RSA algorithm
(`RsaAnyPublicKey` of `src/rsa.rs`). -/
structure RsaAnyPublicKey where
  public_key : PKeyData
deriving DecidableEq, Repr

/-- `RsaPrivateKey::generate(bits, algorithm)`. -/
def RsaPrivateKey.generate (ssl : Ssl) (bits : Nat) (algorithm : RsaAlgorithm) :
    Result RsaPrivateKey :=
  if bits < 2048 then
    Except.error Error.UnsupportedOrInvalidKey
  else do
    let rsa ← ssl.generateRsa bits
    let pkey ← ssl.pkeyFromRsa rsa
    pure { private_key := pkey, algorithm := algorithm }

/-- `RsaPrivateKey::from_pkey(pkey, algorithm)`:
`if !pkey.rsa()?.check_key()? { return Err(UnsupportedOrInvalidKey) }`. -/
def RsaPrivateKey.from_pkey (ssl : Ssl) (pkey : PKeyData) (algorithm : RsaAlgorithm) :
    Result RsaPrivateKey := do
  let rsa ← pkeyRsa pkey
  let chk ← ssl.checkKey rsa
  if !chk then
    Except.error Error.UnsupportedOrInvalidKey
  else
    pure { private_key := pkey, algorithm := algorithm }

/-- `RsaPrivateKey::from_pem(pem, algorithm)`. -/
def RsaPrivateKey.from_pem (ssl : Ssl) (pem : String) (algorithm : RsaAlgorithm) :
    Result RsaPrivateKey := do
  let pk ← ssl.privateKeyFromPem pem
  RsaPrivateKey.from_pkey ssl pk algorithm

/-- `RsaPrivateKey::public_key_pem()`. -/
def RsaPrivateKey.public_key_pem (ssl : Ssl) (self : RsaPrivateKey) : Result String :=
  ssl.publicKeyToPem self.private_key

/-- `RsaPrivateKey::n()`: `self.private_key.rsa()?.n().to_vec()`. -/
def RsaPrivateKey.n (self : RsaPrivateKey) : Result (List Nat) := do
  let r ← pkeyRsa self.private_key
  pure r.n

/-- `RsaPrivateKey::e()`: `self.private_key.rsa()?.e().to_vec()`. -/
def RsaPrivateKey.e (self : RsaPrivateKey) : Result (List Nat) := do
  let r ← pkeyRsa self.private_key
  pure r.e

/-- `RsaPublicKey::from_pkey(pkey, algorithm)`: `pkey.rsa()?;` then wrap. -/
def RsaPublicKey.from_pkey (pkey : PKeyData) (algorithm : RsaAlgorithm) :
    Result RsaPublicKey := do
  let _ ← pkeyRsa pkey
  pure { public_key := pkey, algorithm := algorithm }

/-- `RsaPublicKey::from_pem(pem, algorithm)`: dispatch on whether the PEM text
contains `"BEGIN RSA"`, then parse with the PKCS#1 or the SubjectPublicKeyInfo
parser. -/
def RsaPublicKey.from_pem (ssl : Ssl) (pem : String) (algorithm : RsaAlgorithm) :
    Result RsaPublicKey :=
  if containsBeginRsa pem then do
    let rsa ← ssl.publicKeyFromPemPkcs1 pem
    let pkey ← ssl.pkeyFromRsa rsa
    RsaPublicKey.from_pkey pkey algorithm
  else do
    let pkey ← ssl.publicKeyFromPem pem
    RsaPublicKey.from_pkey pkey algorithm

/-- `RsaPublicKey::n()`. -/
def RsaPublicKey.n (self : RsaPublicKey) : Result (List Nat) := do
  let r ← pkeyRsa self.public_key
  pure r.n

/-- `RsaPublicKey::e()`. -/
def RsaPublicKey.e (self : RsaPublicKey) : Result (List Nat) := do
  let r ← pkeyRsa self.public_key
  pure r.e

/-- `RsaAnyPublicKey::from_pkey(pkey)`: an infallible wrap, with no RSA check. -/
def RsaAnyPublicKey.from_pkey (pkey : PKeyData) : RsaAnyPublicKey :=
  { public_key := pkey }

/-- `RsaAnyPublicKey::from_pem(pem)`: the same header dispatch as
`RsaPublicKey::from_pem`. -/
def RsaAnyPublicKey.from_pem (ssl : Ssl) (pem : String) : Result RsaAnyPublicKey :=
  if containsBeginRsa pem then do
    let rsa ← ssl.publicKeyFromPemPkcs1 pem
    let pkey ← ssl.pkeyFromRsa rsa
    pure (RsaAnyPublicKey.from_pkey pkey)
  else do
    let pkey ← ssl.publicKeyFromPem pem
    pure (RsaAnyPublicKey.from_pkey pkey)

/-- `RsaAnyPublicKey::n()`. -/
def RsaAnyPublicKey.n (self : RsaAnyPublicKey) : Result (List Nat) := do
  let r ← pkeyRsa self.public_key
  pure r.n

/-- `RsaAnyPublicKey::e()`. -/
def RsaAnyPublicKey.e (self : RsaAnyPublicKey) : Result (List Nat) := do
  let r ← pkeyRsa self.public_key
  pure r.e

/-- `<RsaPrivateKey as SigningKey>::sign(v)`: create a `Signer` with the bound
algorithm's digest, set PSS padding and salt length when the algorithm is PSS,
feed the payload, and run the signing primitive. -/
def RsaPrivateKey.sign (ssl : Ssl) (self : RsaPrivateKey) (v : List Nat) :
    Result (List Nat) := do
  let _ ← ssl.signerNew self.algorithm.digest self.private_key
  let _ ← (if self.algorithm.is_pss then do
      let _ ← ssl.setRsaPadding Padding.pkcs1Pss
      ssl.setRsaPssSaltlen RsaPssSaltlen.digestLength
    else pure ())
  let _ ← ssl.signerUpdate v
  ssl.signToVec (ctxConfig self.algorithm self.private_key) v

/-- `<RsaPrivateKey as VerificationKey>::verify(v, sig, alg)`: reject a claimed
algorithm name other than the bound algorithm's name, then configure a
`Verifier` and run the one-shot primitive; a `false` result becomes
`VerificationError`. -/
def RsaPrivateKey.verify (ssl : Ssl) (self : RsaPrivateKey)
    (v sig : List Nat) (alg : String) : Result Unit :=
  if alg ≠ self.algorithm.name then
    Except.error Error.VerificationError
  else do
    let _ ← ssl.verifierNew self.algorithm.digest self.private_key
    let _ ← (if self.algorithm.is_pss then do
        let _ ← ssl.setRsaPadding Padding.pkcs1Pss
        ssl.setRsaPssSaltlen RsaPssSaltlen.digestLength
      else pure ())
    let ok ← ssl.verifyOneshot (ctxConfig self.algorithm self.private_key) sig v
    if ok then pure () else Except.error Error.VerificationError

/-- `<RsaPublicKey as VerificationKey>::verify(v, sig, alg)`. -/
def RsaPublicKey.verify (ssl : Ssl) (self : RsaPublicKey)
    (v sig : List Nat) (alg : String) : Result Unit :=
  if alg ≠ self.algorithm.name then
    Except.error Error.VerificationError
  else do
    let _ ← ssl.verifierNew self.algorithm.digest self.public_key
    let _ ← (if self.algorithm.is_pss then do
        let _ ← ssl.setRsaPadding Padding.pkcs1Pss
        ssl.setRsaPssSaltlen RsaPssSaltlen.digestLength
      else pure ())
    let ok ← ssl.verifyOneshot (ctxConfig self.algorithm self.public_key) sig v
    if ok then pure () else Except.error Error.VerificationError

/-- `<RsaAnyPublicKey as VerificationKey>::verify(v, sig, alg)`: resolve the
claimed name through `RsaAlgorithm::from_name` (propagating its error with
`?`), then verify under the resolved algorithm. -/
def RsaAnyPublicKey.verify (ssl : Ssl) (self : RsaAnyPublicKey)
    (v sig : List Nat) (alg : String) : Result Unit := do
  let alg ← RsaAlgorithm.from_name alg
  let _ ← ssl.verifierNew alg.digest self.public_key
  let _ ← (if alg.is_pss then do
      let _ ← ssl.setRsaPadding Padding.pkcs1Pss
      ssl.setRsaPssSaltlen RsaPssSaltlen.digestLength
    else pure ())
  let ok ← ssl.verifyOneshot (ctxConfig alg self.public_key) sig v
  if ok then pure () else Except.error Error.VerificationError

/-- Modelled from the spec: the `Jwk` record (defined in the crate's `jwk.rs`,
which is not part of the provided sources) is a flat record with optional
fields covering all families: `kty`, `alg`, `use`, RSA's `n`/`e`, EC's
`crv`/`x`/`y` (EdDSA reuses `crv`/`x`).  An absent field is `none`; the
spec distinguishes absent from null-valued, and `Jwk::default()` leaves every
optional field absent. -/
structure Jwk where
  kty : String := ""
  alg : Option String := none
  use_ : Option String := none
  n : Option String := none
  e : Option String := none
  crv : Option String := none
  x : Option String := none
  y : Option String := none
deriving DecidableEq, Repr

/-- The base64url alphabet (RFC 4648 §5), in value order. -/
def b64Alphabet : List Char :=
  "ABCDEFGHIJKLMNOPQRSTUVWXYZabcdefghijklmnopqrstuvwxyz0123456789-_".toList

def b64urlChar (i : Nat) : Char := b64Alphabet.getD i 'A'

/-- Modelled from the spec: `base64::encode_config(bytes, url_safe_trailing_bits())`
(the config lives in the crate root, which is not part of the provided
sources) encodes with the base64url alphabet and no `=` padding: groups of
three bytes become four characters; a final group of one or two bytes becomes
two or three characters with zero trailing bits. -/
def base64UrlEncode : List Nat → List Char
  | [] => []
  | [b1] => [b64urlChar (b1 / 4), b64urlChar (b1 % 4 * 16)]
  | [b1, b2] =>
      [b64urlChar (b1 / 4), b64urlChar (b1 % 4 * 16 + b2 / 16), b64urlChar (b2 % 16 * 4)]
  | b1 :: b2 :: b3 :: rest =>
      b64urlChar (b1 / 4) :: b64urlChar (b1 % 4 * 16 + b2 / 16) ::
      b64urlChar (b2 % 16 * 4 + b3 / 64) :: b64urlChar (b3 % 64) ::
      base64UrlEncode rest

/-- `<RsaPrivateKey as SigningKey>::public_key_to_jwk()` (the
`VerificationKey` impl for `RsaPrivateKey` has the identical body). -/
def RsaPrivateKey.public_key_to_jwk (self : RsaPrivateKey) : Result Jwk := do
  let nb ← self.n
  let eb ← self.e
  pure { kty := "RSA", alg := some self.algorithm.name, use_ := some "sig",
         n := some (String.mk (base64UrlEncode nb)),
         e := some (String.mk (base64UrlEncode eb)) }

/-- `<RsaPublicKey as VerificationKey>::public_key_to_jwk()`. -/
def RsaPublicKey.public_key_to_jwk (self : RsaPublicKey) : Result Jwk := do
  let nb ← self.n
  let eb ← self.e
  pure { kty := "RSA", alg := some self.algorithm.name, use_ := some "sig",
         n := some (String.mk (base64UrlEncode nb)),
         e := some (String.mk (base64UrlEncode eb)) }

/-- `<RsaAnyPublicKey as VerificationKey>::public_key_to_jwk()`: no `alg`
field is set — the key binds no algorithm. -/
def RsaAnyPublicKey.public_key_to_jwk (self : RsaAnyPublicKey) : Result Jwk := do
  let nb ← self.n
  let eb ← self.e
  pure { kty := "RSA", use_ := some "sig",
         n := some (String.mk (base64UrlEncode nb)),
         e := some (String.mk (base64UrlEncode eb)) }

/-! ### Concrete instances of the OpenSSL black box, for evaluating the
embedded operations on closed inputs.  `okSsl` is a toy instance on which
every entry point succeeds: its signature scheme appends the byte `97` to the
payload, and its one-shot verifier accepts exactly such signatures. -/

def okSsl : Ssl where
  verifierNew := fun _ _ => Except.ok ()
  setRsaPadding := fun _ => Except.ok ()
  setRsaPssSaltlen := fun _ => Except.ok ()
  verifyOneshot := fun _ sig v => Except.ok (decide (sig = v ++ [97]))
  signerNew := fun _ _ => Except.ok ()
  signerUpdate := fun _ => Except.ok ()
  signToVec := fun _ v => Except.ok (v ++ [97])
  generateRsa := fun _ => Except.ok { n := [2], e := [1, 0, 1] }
  pkeyFromRsa := fun r => Except.ok { rsaPart := some r }
  checkKey := fun _ => Except.ok true
  privateKeyFromPem := fun _ => Except.ok { rsaPart := some { n := [2], e := [3] } }
  publicKeyFromPem := fun _ => Except.ok { rsaPart := some { n := [2], e := [3] } }
  publicKeyFromPemPkcs1 := fun _ => Except.ok { n := [2], e := [3] }
  publicKeyToPem := fun _ => Except.ok "-----BEGIN PUBLIC KEY-----"

/-- A variant of `okSsl` whose RSA consistency check rejects every key. -/
def badKeySsl : Ssl := { okSsl with checkKey := fun _ => Except.ok false }

/-- A variant of `okSsl` whose one-shot verifier fails with an OpenSSL
error-stack error. -/
def errSsl : Ssl := { okSsl with verifyOneshot := fun _ _ _ => Except.error (Error.OpenSsl 7) }

/-- An RSA `PKey` with small concrete components, for closed evaluations. -/
def samplePKey : PKeyData := { rsaPart := some { n := [2], e := [3] } }

/-! ### Reduction lemmas for the `Result` monad -/

@[simp] theorem bind_ok_eq {α β : Type} (a : α) (f : α → Result β) :
    (Except.ok a : Result α) >>= f = f a := rfl

@[simp] theorem bind_error_eq {α β : Type} (err : Error) (f : α → Result β) :
    (Except.error err : Result α) >>= f = (Except.error err : Result β) := rfl

@[simp] theorem map_ok_eq {α β : Type} (g : α → β) (a : α) :
    g <$> (Except.ok a : Result α) = Except.ok (g a) := rfl

@[simp] theorem map_error_eq {α β : Type} (g : α → β) (err : Error) :
    g <$> (Except.error err : Result α) = (Except.error err : Result β) := rfl

/-! ### Claim theorems -/

/-- C1: for an algorithm-bound RSA key (`RsaPrivateKey` used as a verifier, or
`RsaPublicKey`), any claimed algorithm name different from the bound
algorithm's canonical name makes `verify` return `Err(VerificationError)`,
uniformly in the OpenSSL black box — so the failure happens before any
cryptographic call is consulted. -/
theorem verify_rejects_wrong_name_before_crypto
    (ssl : Ssl) (k : RsaPrivateKey) (pk : RsaPublicKey) (v sig : List Nat) (alg : String) :
    (alg ≠ k.algorithm.name →
      RsaPrivateKey.verify ssl k v sig alg = Except.error Error.VerificationError) ∧
    (alg ≠ pk.algorithm.name →
      RsaPublicKey.verify ssl pk v sig alg = Except.error Error.VerificationError) := by
  constructor
  · intro h
    simp [RsaPrivateKey.verify, h]
  · intro h
    simp [RsaPublicKey.verify, h]

theorem verify_rejects_wrong_name_before_crypto_witness :
    RsaPrivateKey.verify okSsl { private_key := samplePKey, algorithm := RsaAlgorithm.RS256 }
        [1, 2] [3] "RS384" = Except.error Error.VerificationError ∧
    RsaPublicKey.verify okSsl { public_key := samplePKey, algorithm := RsaAlgorithm.RS256 }
        [1, 2] [3] "RS384" = Except.error Error.VerificationError :=
  ⟨(verify_rejects_wrong_name_before_crypto okSsl
      { private_key := samplePKey, algorithm := RsaAlgorithm.RS256 }
      { public_key := samplePKey, algorithm := RsaAlgorithm.RS256 } [1, 2] [3] "RS384").1
      (by decide),
   (verify_rejects_wrong_name_before_crypto okSsl
      { private_key := samplePKey, algorithm := RsaAlgorithm.RS256 }
      { public_key := samplePKey, algorithm := RsaAlgorithm.RS256 } [1, 2] [3] "RS384").2
      (by decide)⟩

/-- C4: `RsaAlgorithm::from_name` and `RsaAlgorithm::name` are mutual
inverses: `from_name (a.name) = Ok a` for each of the six catalog members,
and any other name string yields an error, never a fallback algorithm. -/
theorem from_name_name_mutual_inverses :
    (∀ a : RsaAlgorithm, RsaAlgorithm.from_name a.name = Except.ok a) ∧
    (∀ s : String, s ≠ "RS256" → s ≠ "RS384" → s ≠ "RS512" →
      s ≠ "PS256" → s ≠ "PS384" → s ≠ "PS512" →
      RsaAlgorithm.from_name s = Except.error Error.UnsupportedOrInvalidKey) := by
  constructor
  · intro a
    cases a <;> rfl
  · intro s h1 h2 h3 h4 h5 h6
    simp [RsaAlgorithm.from_name, h1, h2, h3, h4, h5, h6]

theorem from_name_name_mutual_inverses_witness :
    RsaAlgorithm.from_name RsaAlgorithm.PS384.name = Except.ok RsaAlgorithm.PS384 ∧
    RsaAlgorithm.from_name "HS256" = Except.error Error.UnsupportedOrInvalidKey :=
  ⟨from_name_name_mutual_inverses.1 RsaAlgorithm.PS384,
   from_name_name_mutual_inverses.2 "HS256" (by decide) (by decide) (by decide)
     (by decide) (by decide) (by decide)⟩

/-- C6: `RsaPrivateKey::generate(bits, algorithm)` rejects every bit length
below 2048 with `UnsupportedOrInvalidKey`, for every algorithm and
independently of the key-generation primitive (in particular 1024 bits), and
succeeds at 2048 bits whenever the external generation calls succeed. -/
theorem generate_enforces_min_bits
    (ssl : Ssl) (bits : Nat) (a : RsaAlgorithm) (r : Rsa) (p : PKeyData)
    (hgen : ssl.generateRsa 2048 = Except.ok r)
    (hpk : ssl.pkeyFromRsa r = Except.ok p) :
    (bits < 2048 →
      RsaPrivateKey.generate ssl bits a = Except.error Error.UnsupportedOrInvalidKey) ∧
    RsaPrivateKey.generate ssl 1024 a = Except.error Error.UnsupportedOrInvalidKey ∧
    RsaPrivateKey.generate ssl 2048 a = Except.ok { private_key := p, algorithm := a } := by
  refine ⟨fun h => ?_, ?_, ?_⟩
  · simp [RsaPrivateKey.generate, h]
  · simp [RsaPrivateKey.generate]
  · simp [RsaPrivateKey.generate, hgen, hpk, Except.bind, Except.map]

theorem generate_enforces_min_bits_witness :
    RsaPrivateKey.generate okSsl 1024 RsaAlgorithm.RS256 =
      Except.error Error.UnsupportedOrInvalidKey ∧
    RsaPrivateKey.generate okSsl 2048 RsaAlgorithm.RS256 =
      Except.ok { private_key := { rsaPart := some { n := [2], e := [1, 0, 1] } },
                  algorithm := RsaAlgorithm.RS256 } :=
  ⟨(generate_enforces_min_bits okSsl 1024 RsaAlgorithm.RS256
      { n := [2], e := [1, 0, 1] } { rsaPart := some { n := [2], e := [1, 0, 1] } }
      rfl rfl).2.1,
   (generate_enforces_min_bits okSsl 2048 RsaAlgorithm.RS256
      { n := [2], e := [1, 0, 1] } { rsaPart := some { n := [2], e := [1, 0, 1] } }
      rfl rfl).2.2⟩

/-- C2 (amended): `RsaAnyPublicKey::verify` with a claimed algorithm name
outside the six-member RSA catalog fails with `UnsupportedOrInvalidKey` — the
error propagated from `RsaAlgorithm::from_name` by `?` — uniformly in the
OpenSSL black box, so no cryptographic call is consulted. -/
theorem any_verify_unknown_name_unsupported
    (ssl : Ssl) (k : RsaAnyPublicKey) (v sig : List Nat) (s : String)
    (h1 : s ≠ "RS256") (h2 : s ≠ "RS384") (h3 : s ≠ "RS512")
    (h4 : s ≠ "PS256") (h5 : s ≠ "PS384") (h6 : s ≠ "PS512") :
    RsaAnyPublicKey.verify ssl k v sig s = Except.error Error.UnsupportedOrInvalidKey := by
  have hf : RsaAlgorithm.from_name s = Except.error Error.UnsupportedOrInvalidKey := by
    simp [RsaAlgorithm.from_name, h1, h2, h3, h4, h5, h6]
  simp [RsaAnyPublicKey.verify, hf]

theorem any_verify_unknown_name_unsupported_witness :
    RsaAnyPublicKey.verify okSsl { public_key := samplePKey } [1] [2] "ES256" =
      Except.error Error.UnsupportedOrInvalidKey :=
  any_verify_unknown_name_unsupported okSsl { public_key := samplePKey } [1] [2] "ES256"
    (by decide) (by decide) (by decide) (by decide) (by decide) (by decide)

/-- C2 counterexample: at the concrete non-catalog name `"HS256"`,
`RsaAnyPublicKey::verify` returns `Err(UnsupportedOrInvalidKey)`, which is not
`Err(VerificationError)` — refuting the claim that the result is
`VerificationError`. -/
theorem any_verify_unknown_name_cex :
    RsaAnyPublicKey.verify okSsl { public_key := samplePKey } [1] [2] "HS256" =
      Except.error Error.UnsupportedOrInvalidKey ∧
    (Except.error Error.UnsupportedOrInvalidKey : Result Unit) ≠
      Except.error Error.VerificationError := by
  constructor
  · rfl
  · simp

/-- C5 (amended): in all three `verify` implementations a `false` result from
the one-shot verification primitive is normalized to `VerificationError` — the
same error produced for a wrong claimed algorithm name — while an underlying
library error from the one-shot call propagates unchanged as the passthrough
error rather than being coerced to `VerificationError`. -/
theorem verify_normalizes_oneshot_false
    (ssl ssl2 : Ssl) (k : RsaPrivateKey) (pk : RsaPublicKey) (ak : RsaAnyPublicKey)
    (v sig : List Nat) (a : RsaAlgorithm) (err : Error)
    (hpad : ssl.setRsaPadding Padding.pkcs1Pss = Except.ok ())
    (hsalt : ssl.setRsaPssSaltlen RsaPssSaltlen.digestLength = Except.ok ())
    (hn1 : ssl.verifierNew k.algorithm.digest k.private_key = Except.ok ())
    (hf1 : ssl.verifyOneshot (ctxConfig k.algorithm k.private_key) sig v = Except.ok false)
    (hn2 : ssl.verifierNew pk.algorithm.digest pk.public_key = Except.ok ())
    (hf2 : ssl.verifyOneshot (ctxConfig pk.algorithm pk.public_key) sig v = Except.ok false)
    (hn3 : ssl.verifierNew a.digest ak.public_key = Except.ok ())
    (hf3 : ssl.verifyOneshot (ctxConfig a ak.public_key) sig v = Except.ok false)
    (hn4 : ssl2.verifierNew pk.algorithm.digest pk.public_key = Except.ok ())
    (hpad2 : ssl2.setRsaPadding Padding.pkcs1Pss = Except.ok ())
    (hsalt2 : ssl2.setRsaPssSaltlen RsaPssSaltlen.digestLength = Except.ok ())
    (herr : ssl2.verifyOneshot (ctxConfig pk.algorithm pk.public_key) sig v =
      Except.error err)
    (hn5 : ssl2.verifierNew k.algorithm.digest k.private_key = Except.ok ())
    (herr1 : ssl2.verifyOneshot (ctxConfig k.algorithm k.private_key) sig v =
      Except.error err)
    (hn6 : ssl2.verifierNew a.digest ak.public_key = Except.ok ())
    (herr3 : ssl2.verifyOneshot (ctxConfig a ak.public_key) sig v =
      Except.error err) :
    RsaPrivateKey.verify ssl k v sig k.algorithm.name =
      Except.error Error.VerificationError ∧
    RsaPublicKey.verify ssl pk v sig pk.algorithm.name =
      Except.error Error.VerificationError ∧
    RsaAnyPublicKey.verify ssl ak v sig a.name =
      Except.error Error.VerificationError ∧
    RsaPrivateKey.verify ssl2 k v sig k.algorithm.name = Except.error err ∧
    RsaPublicKey.verify ssl2 pk v sig pk.algorithm.name = Except.error err ∧
    RsaAnyPublicKey.verify ssl2 ak v sig a.name = Except.error err := by
  have hname : RsaAlgorithm.from_name a.name = Except.ok a := by cases a <;> rfl
  refine ⟨?_, ?_, ?_, ?_, ?_, ?_⟩
  · rw [RsaPrivateKey.verify, if_neg (by simp)]
    cases hps : k.algorithm.is_pss <;>
      simp [hps, hn1, hpad, hsalt, hf1]
  · rw [RsaPublicKey.verify, if_neg (by simp)]
    cases hps : pk.algorithm.is_pss <;>
      simp [hps, hn2, hpad, hsalt, hf2]
  · rw [RsaAnyPublicKey.verify, hname, bind_ok_eq]
    cases hps : a.is_pss <;>
      simp [hps, hn3, hpad, hsalt, hf3]
  · rw [RsaPrivateKey.verify, if_neg (by simp)]
    cases hps : k.algorithm.is_pss <;>
      simp [hps, hn5, hpad2, hsalt2, herr1]
  · rw [RsaPublicKey.verify, if_neg (by simp)]
    cases hps : pk.algorithm.is_pss <;>
      simp [hps, hn4, hpad2, hsalt2, herr]
  · rw [RsaAnyPublicKey.verify, hname, bind_ok_eq]
    cases hps : a.is_pss <;>
      simp [hps, hn6, hpad2, hsalt2, herr3]

theorem verify_normalizes_oneshot_false_witness :
    RsaPrivateKey.verify okSsl { private_key := samplePKey, algorithm := RsaAlgorithm.PS256 }
        [1] [9] "PS256" = Except.error Error.VerificationError ∧
    RsaPublicKey.verify okSsl { public_key := samplePKey, algorithm := RsaAlgorithm.PS256 }
        [1] [9] "PS256" = Except.error Error.VerificationError ∧
    RsaAnyPublicKey.verify okSsl { public_key := samplePKey } [1] [9] "PS256" =
      Except.error Error.VerificationError ∧
    RsaPrivateKey.verify errSsl { private_key := samplePKey, algorithm := RsaAlgorithm.PS256 }
        [1] [9] "PS256" = Except.error (Error.OpenSsl 7) ∧
    RsaPublicKey.verify errSsl { public_key := samplePKey, algorithm := RsaAlgorithm.PS256 }
        [1] [9] "PS256" = Except.error (Error.OpenSsl 7) ∧
    RsaAnyPublicKey.verify errSsl { public_key := samplePKey } [1] [9] "PS256" =
      Except.error (Error.OpenSsl 7) := by
  have h := verify_normalizes_oneshot_false okSsl errSsl
    { private_key := samplePKey, algorithm := RsaAlgorithm.PS256 }
    { public_key := samplePKey, algorithm := RsaAlgorithm.PS256 }
    { public_key := samplePKey } [1] [9] RsaAlgorithm.PS256 (Error.OpenSsl 7)
    rfl rfl rfl rfl rfl rfl rfl rfl rfl rfl rfl rfl rfl rfl rfl rfl
  exact ⟨h.1, h.2.1, h.2.2.1, h.2.2.2.1, h.2.2.2.2.1, h.2.2.2.2.2⟩

/-- C5 counterexample: with a one-shot primitive that fails with an OpenSSL
error-stack error, all three `verify` implementations return that passthrough
error, which is not `VerificationError` — refuting the claim that every
underlying cryptographic error is normalized to `VerificationError`. -/
theorem verify_error_passthrough_cex :
    RsaPrivateKey.verify errSsl { private_key := samplePKey, algorithm := RsaAlgorithm.RS256 }
        [1] [2] "RS256" = Except.error (Error.OpenSsl 7) ∧
    RsaPublicKey.verify errSsl { public_key := samplePKey, algorithm := RsaAlgorithm.RS256 }
        [1] [2] "RS256" = Except.error (Error.OpenSsl 7) ∧
    RsaAnyPublicKey.verify errSsl { public_key := samplePKey } [1] [2] "RS256" =
      Except.error (Error.OpenSsl 7) ∧
    (Except.error (Error.OpenSsl 7) : Result Unit) ≠ Except.error Error.VerificationError := by
  refine ⟨rfl, rfl, rfl, by simp⟩

/-- C10: `RsaPrivateKey::from_pem` (through `from_pkey`) runs the library's
RSA key-consistency check: a PEM that parses as an RSA private key whose
components fail `check_key` is rejected with `UnsupportedOrInvalidKey`, and
every successfully constructed key passed the check. -/
theorem from_pem_runs_check_key
    (ssl : Ssl) (pem : String) (a : RsaAlgorithm) (p : PKeyData) (r : Rsa)
    (hp : ssl.privateKeyFromPem pem = Except.ok p)
    (hr : p.rsaPart = some r)
    (hchk : ssl.checkKey r = Except.ok false) :
    RsaPrivateKey.from_pem ssl pem a = Except.error Error.UnsupportedOrInvalidKey ∧
    (∀ pem2 k, RsaPrivateKey.from_pem ssl pem2 a = Except.ok k →
      ∃ r2, k.private_key.rsaPart = some r2 ∧ ssl.checkKey r2 = Except.ok true) := by
  constructor
  · simp [RsaPrivateKey.from_pem, RsaPrivateKey.from_pkey, hp, pkeyRsa, hr, hchk]
  · intro pem2 k hk
    rw [RsaPrivateKey.from_pem] at hk
    cases hpem : ssl.privateKeyFromPem pem2 with
    | error e => rw [hpem] at hk; simp at hk
    | ok p2 =>
      rw [hpem, bind_ok_eq, RsaPrivateKey.from_pkey] at hk
      cases hr2 : p2.rsaPart with
      | none => simp [pkeyRsa, hr2] at hk
      | some r2 =>
        simp only [pkeyRsa, hr2, bind_ok_eq] at hk
        cases hc : ssl.checkKey r2 with
        | error e => rw [hc] at hk; simp at hk
        | ok b =>
          rw [hc, bind_ok_eq] at hk
          cases b with
          | false => simp at hk
          | true =>
            simp only [Bool.not_true, Bool.false_eq_true, if_false, pure,
              Except.pure, Except.ok.injEq] at hk
            exact ⟨r2, by rw [← hk]; exact hr2, hc⟩

theorem from_pem_runs_check_key_witness :
    RsaPrivateKey.from_pem badKeySsl "a pem block" RsaAlgorithm.RS256 =
      Except.error Error.UnsupportedOrInvalidKey :=
  (from_pem_runs_check_key badKeySsl "a pem block" RsaAlgorithm.RS256
    { rsaPart := some { n := [2], e := [3] } } { n := [2], e := [3] } rfl rfl rfl).1

/-- The PKCS#1 branch of `RsaPublicKey::from_pem`, as a standalone pipeline:
it consults only the `Rsa::public_key_from_pem_pkcs1` parser. -/
def pkcs1ImportPath (ssl : Ssl) (pem : String) (algorithm : RsaAlgorithm) :
    Result RsaPublicKey := do
  let rsa ← ssl.publicKeyFromPemPkcs1 pem
  let pkey ← ssl.pkeyFromRsa rsa
  RsaPublicKey.from_pkey pkey algorithm

/-- The SubjectPublicKeyInfo branch of `RsaPublicKey::from_pem`: it consults
only the `PKey::public_key_from_pem` parser. -/
def spkiImportPath (ssl : Ssl) (pem : String) (algorithm : RsaAlgorithm) :
    Result RsaPublicKey := do
  let pkey ← ssl.publicKeyFromPem pem
  RsaPublicKey.from_pkey pkey algorithm

/-- The PKCS#1 branch of `RsaAnyPublicKey::from_pem`. -/
def anyPkcs1ImportPath (ssl : Ssl) (pem : String) : Result RsaAnyPublicKey := do
  let rsa ← ssl.publicKeyFromPemPkcs1 pem
  let pkey ← ssl.pkeyFromRsa rsa
  pure (RsaAnyPublicKey.from_pkey pkey)

/-- The SubjectPublicKeyInfo branch of `RsaAnyPublicKey::from_pem`. -/
def anySpkiImportPath (ssl : Ssl) (pem : String) : Result RsaAnyPublicKey := do
  let pkey ← ssl.publicKeyFromPem pem
  pure (RsaAnyPublicKey.from_pkey pkey)

/-- C7: `RsaPublicKey::from_pem` and `RsaAnyPublicKey::from_pem` dispatch to
the PKCS#1 parser exactly when the PEM text contains the substring
`"BEGIN RSA"` and to the SubjectPublicKeyInfo parser otherwise, with no
caller flag; both public PEM variants are accepted whenever the selected
parser accepts them. -/
theorem from_pem_header_dispatch
    (ssl : Ssl) (a : RsaAlgorithm) (pemS pemP : String)
    (kS pP : PKeyData) (rP rS rP2 : Rsa)
    (hS0 : containsBeginRsa pemS = false)
    (hS1 : ssl.publicKeyFromPem pemS = Except.ok kS)
    (hS2 : kS.rsaPart = some rS)
    (hP0 : containsBeginRsa pemP = true)
    (hP1 : ssl.publicKeyFromPemPkcs1 pemP = Except.ok rP)
    (hP2 : ssl.pkeyFromRsa rP = Except.ok pP)
    (hP3 : pP.rsaPart = some rP2) :
    (∀ pem, containsBeginRsa pem = true →
      RsaPublicKey.from_pem ssl pem a = pkcs1ImportPath ssl pem a ∧
      RsaAnyPublicKey.from_pem ssl pem = anyPkcs1ImportPath ssl pem) ∧
    (∀ pem, containsBeginRsa pem = false →
      RsaPublicKey.from_pem ssl pem a = spkiImportPath ssl pem a ∧
      RsaAnyPublicKey.from_pem ssl pem = anySpkiImportPath ssl pem) ∧
    RsaPublicKey.from_pem ssl pemS a = Except.ok { public_key := kS, algorithm := a } ∧
    RsaPublicKey.from_pem ssl pemP a = Except.ok { public_key := pP, algorithm := a } ∧
    RsaAnyPublicKey.from_pem ssl pemS = Except.ok { public_key := kS } ∧
    RsaAnyPublicKey.from_pem ssl pemP = Except.ok { public_key := pP } := by
  refine ⟨fun pem h => ⟨?_, ?_⟩, fun pem h => ⟨?_, ?_⟩, ?_, ?_, ?_, ?_⟩
  · rw [RsaPublicKey.from_pem, if_pos h, pkcs1ImportPath]
  · rw [RsaAnyPublicKey.from_pem, if_pos h, anyPkcs1ImportPath]
  · rw [RsaPublicKey.from_pem, if_neg (by simp [h]), spkiImportPath]
  · rw [RsaAnyPublicKey.from_pem, if_neg (by simp [h]), anySpkiImportPath]
  · rw [RsaPublicKey.from_pem, if_neg (by simp [hS0])]
    simp [hS1, RsaPublicKey.from_pkey, pkeyRsa, hS2]
  · rw [RsaPublicKey.from_pem, if_pos hP0]
    simp [hP1, hP2, RsaPublicKey.from_pkey, pkeyRsa, hP3]
  · rw [RsaAnyPublicKey.from_pem, if_neg (by simp [hS0])]
    simp [hS1, RsaAnyPublicKey.from_pkey]
  · rw [RsaAnyPublicKey.from_pem, if_pos hP0]
    simp [hP1, hP2, RsaAnyPublicKey.from_pkey]

theorem from_pem_header_dispatch_witness :
    RsaPublicKey.from_pem okSsl "-----BEGIN PUBLIC KEY-----" RsaAlgorithm.RS256 =
      Except.ok { public_key := { rsaPart := some { n := [2], e := [3] } },
                  algorithm := RsaAlgorithm.RS256 } ∧
    RsaPublicKey.from_pem okSsl "-----BEGIN RSA PUBLIC KEY-----" RsaAlgorithm.RS256 =
      Except.ok { public_key := { rsaPart := some { n := [2], e := [3] } },
                  algorithm := RsaAlgorithm.RS256 } ∧
    RsaAnyPublicKey.from_pem okSsl "-----BEGIN RSA PUBLIC KEY-----" =
      Except.ok { public_key := { rsaPart := some { n := [2], e := [3] } } } := by
  have h := from_pem_header_dispatch okSsl RsaAlgorithm.RS256
    "-----BEGIN PUBLIC KEY-----" "-----BEGIN RSA PUBLIC KEY-----"
    { rsaPart := some { n := [2], e := [3] } } { rsaPart := some { n := [2], e := [3] } }
    { n := [2], e := [3] } { n := [2], e := [3] } { n := [2], e := [3] }
    (by decide) rfl rfl (by decide) rfl rfl rfl
  exact ⟨h.2.2.1, h.2.2.2.1, h.2.2.2.2.2⟩

/-- No base64url alphabet character is the padding character `'='`. -/
theorem b64urlChar_ne_pad (i : Nat) : b64urlChar i ≠ '=' := by
  by_cases h : i < 64
  · interval_cases i <;> decide
  · rw [b64urlChar, List.getD_eq_default]
    · decide
    · have hlen : b64Alphabet.length = 64 := rfl
      omega

/-- The unpadded base64url encoder never emits `'='`. -/
theorem base64UrlEncode_no_pad :
    ∀ bs : List Nat, ∀ c ∈ base64UrlEncode bs, c ≠ '=' := by
  intro bs
  induction bs using base64UrlEncode.induct with
  | case1 =>
    intro c hc
    simp [base64UrlEncode] at hc
  | case2 b1 =>
    intro c hc
    simp only [base64UrlEncode, List.mem_cons, List.not_mem_nil, or_false] at hc
    rcases hc with rfl | rfl <;> exact b64urlChar_ne_pad _
  | case3 b1 b2 =>
    intro c hc
    simp only [base64UrlEncode, List.mem_cons, List.not_mem_nil, or_false] at hc
    rcases hc with rfl | rfl | rfl <;> exact b64urlChar_ne_pad _
  | case4 b1 b2 b3 rest ih =>
    intro c hc
    simp only [base64UrlEncode, List.mem_cons] at hc
    rcases hc with rfl | rfl | rfl | rfl | hc
    · exact b64urlChar_ne_pad _
    · exact b64urlChar_ne_pad _
    · exact b64urlChar_ne_pad _
    · exact b64urlChar_ne_pad _
    · exact ih c hc

/-- C8: for an algorithm-bound RSA key (private or public),
`public_key_to_jwk` yields `kty = "RSA"`, `alg` = the bound algorithm's
canonical name, `use = "sig"`, `n`/`e` = the public components base64url
encoded (with no `'='` padding character anywhere in the encoder's output),
and the non-RSA fields `crv`/`x`/`y` absent. -/
theorem public_key_to_jwk_fields
    (k : RsaPrivateKey) (pk : RsaPublicKey) (r rp : Rsa)
    (hk : k.private_key.rsaPart = some r)
    (hpk : pk.public_key.rsaPart = some rp) :
    RsaPrivateKey.public_key_to_jwk k = Except.ok
      { kty := "RSA", alg := some k.algorithm.name, use_ := some "sig",
        n := some (String.mk (base64UrlEncode r.n)),
        e := some (String.mk (base64UrlEncode r.e)),
        crv := none, x := none, y := none } ∧
    RsaPublicKey.public_key_to_jwk pk = Except.ok
      { kty := "RSA", alg := some pk.algorithm.name, use_ := some "sig",
        n := some (String.mk (base64UrlEncode rp.n)),
        e := some (String.mk (base64UrlEncode rp.e)),
        crv := none, x := none, y := none } ∧
    (∀ bs : List Nat, ∀ c ∈ base64UrlEncode bs, c ≠ '=') := by
  refine ⟨?_, ?_, base64UrlEncode_no_pad⟩
  · simp [RsaPrivateKey.public_key_to_jwk, RsaPrivateKey.n, RsaPrivateKey.e, pkeyRsa, hk]
  · simp [RsaPublicKey.public_key_to_jwk, RsaPublicKey.n, RsaPublicKey.e, pkeyRsa, hpk]

theorem public_key_to_jwk_fields_witness :
    RsaPrivateKey.public_key_to_jwk
        { private_key := samplePKey, algorithm := RsaAlgorithm.RS256 } =
      Except.ok { kty := "RSA", alg := some "RS256", use_ := some "sig",
                  n := some "Ag", e := some "Aw" } ∧
    RsaPublicKey.public_key_to_jwk
        { public_key := samplePKey, algorithm := RsaAlgorithm.PS512 } =
      Except.ok { kty := "RSA", alg := some "PS512", use_ := some "sig",
                  n := some "Ag", e := some "Aw" } := by
  have h := public_key_to_jwk_fields
    { private_key := samplePKey, algorithm := RsaAlgorithm.RS256 }
    { public_key := samplePKey, algorithm := RsaAlgorithm.PS512 }
    { n := [2], e := [3] } { n := [2], e := [3] } rfl rfl
  exact ⟨h.1, h.2.1⟩

/-- C9: `RsaAnyPublicKey::public_key_to_jwk` yields `kty = "RSA"`,
`use = "sig"`, `n`/`e` set, and — the key binding no algorithm — the `alg`
field absent, unlike the algorithm-bound keys' JWK exports. -/
theorem any_public_key_to_jwk_no_alg
    (k : RsaAnyPublicKey) (r : Rsa) (h : k.public_key.rsaPart = some r) :
    RsaAnyPublicKey.public_key_to_jwk k = Except.ok
      { kty := "RSA", alg := none, use_ := some "sig",
        n := some (String.mk (base64UrlEncode r.n)),
        e := some (String.mk (base64UrlEncode r.e)),
        crv := none, x := none, y := none } := by
  simp [RsaAnyPublicKey.public_key_to_jwk, RsaAnyPublicKey.n, RsaAnyPublicKey.e, pkeyRsa, h]

theorem any_public_key_to_jwk_no_alg_witness :
    RsaAnyPublicKey.public_key_to_jwk { public_key := samplePKey } =
      Except.ok { kty := "RSA", alg := none, use_ := some "sig",
                  n := some "Ag", e := some "Aw" } := by
  have h := any_public_key_to_jwk_no_alg { public_key := samplePKey }
    { n := [2], e := [3] } rfl
  exact h

/-- C3: whenever the external primitives behave as the signing/verification
black box the spec assumes — signing succeeds and the one-shot verifier
accepts the produced signature under the same digest/padding configuration,
both for the private key and for the public key parsed back from the exported
public PEM, and rejects an altered payload — `sign` then `verify` under the
bound algorithm's canonical name returns `Ok(())` with the private key and
with the PEM-derived public key, while (for an RS256-bound key) claiming
`"RS384"`, or altering the payload, yields `VerificationError`. -/
theorem sign_verify_roundtrip
    (ssl : Ssl) (k : RsaPrivateKey) (pk : PKeyData) (r : Rsa)
    (pem : String) (v v2 sig : List Nat)
    (hsn : ssl.signerNew k.algorithm.digest k.private_key = Except.ok ())
    (hpad : ssl.setRsaPadding Padding.pkcs1Pss = Except.ok ())
    (hsalt : ssl.setRsaPssSaltlen RsaPssSaltlen.digestLength = Except.ok ())
    (hupd : ssl.signerUpdate v = Except.ok ())
    (hsig : ssl.signToVec (ctxConfig k.algorithm k.private_key) v = Except.ok sig)
    (hvn1 : ssl.verifierNew k.algorithm.digest k.private_key = Except.ok ())
    (hok1 : ssl.verifyOneshot (ctxConfig k.algorithm k.private_key) sig v = Except.ok true)
    (hexp : RsaPrivateKey.public_key_pem ssl k = Except.ok pem)
    (hhdr : containsBeginRsa pem = false)
    (hparse : ssl.publicKeyFromPem pem = Except.ok pk)
    (hrsa : pk.rsaPart = some r)
    (hvn2 : ssl.verifierNew k.algorithm.digest pk = Except.ok ())
    (hok2 : ssl.verifyOneshot (ctxConfig k.algorithm pk) sig v = Except.ok true)
    (htamper : ssl.verifyOneshot (ctxConfig k.algorithm k.private_key) sig v2 =
      Except.ok false) :
    RsaPrivateKey.sign ssl k v = Except.ok sig ∧
    RsaPrivateKey.verify ssl k v sig k.algorithm.name = Except.ok () ∧
    RsaPublicKey.from_pem ssl pem k.algorithm =
      Except.ok { public_key := pk, algorithm := k.algorithm } ∧
    RsaPublicKey.verify ssl { public_key := pk, algorithm := k.algorithm } v sig
      k.algorithm.name = Except.ok () ∧
    (k.algorithm = RsaAlgorithm.RS256 →
      RsaPrivateKey.verify ssl k v sig "RS384" = Except.error Error.VerificationError) ∧
    RsaPrivateKey.verify ssl k v2 sig k.algorithm.name =
      Except.error Error.VerificationError := by
  refine ⟨?_, ?_, ?_, ?_, fun halg => ?_, ?_⟩
  · rw [RsaPrivateKey.sign]
    cases hps : k.algorithm.is_pss <;> simp [hps, hsn, hpad, hsalt, hupd, hsig]
  · rw [RsaPrivateKey.verify, if_neg (by simp)]
    cases hps : k.algorithm.is_pss <;> simp [hps, hvn1, hpad, hsalt, hok1]
  · rw [RsaPublicKey.from_pem, if_neg (by simp [hhdr])]
    simp [hparse, RsaPublicKey.from_pkey, pkeyRsa, hrsa]
  · rw [RsaPublicKey.verify, if_neg (by simp)]
    cases hps : k.algorithm.is_pss <;> simp [hps, hvn2, hpad, hsalt, hok2]
  · rw [RsaPrivateKey.verify, if_pos (by rw [halg]; decide)]
  · rw [RsaPrivateKey.verify, if_neg (by simp)]
    cases hps : k.algorithm.is_pss <;> simp [hps, hvn1, hpad, hsalt, htamper]

theorem sign_verify_roundtrip_witness :
    RsaPrivateKey.sign okSsl { private_key := samplePKey, algorithm := RsaAlgorithm.RS256 }
        [46, 46, 46] = Except.ok [46, 46, 46, 97] ∧
    RsaPrivateKey.verify okSsl { private_key := samplePKey, algorithm := RsaAlgorithm.RS256 }
        [46, 46, 46] [46, 46, 46, 97] "RS256" = Except.ok () ∧
    RsaPublicKey.verify okSsl { public_key := samplePKey, algorithm := RsaAlgorithm.RS256 }
        [46, 46, 46] [46, 46, 46, 97] "RS256" = Except.ok () ∧
    RsaPrivateKey.verify okSsl { private_key := samplePKey, algorithm := RsaAlgorithm.RS256 }
        [46, 46, 46] [46, 46, 46, 97] "RS384" = Except.error Error.VerificationError ∧
    RsaPrivateKey.verify okSsl { private_key := samplePKey, algorithm := RsaAlgorithm.RS256 }
        [46, 46, 46, 46] [46, 46, 46, 97] "RS256" = Except.error Error.VerificationError := by
  have h := sign_verify_roundtrip okSsl
    { private_key := samplePKey, algorithm := RsaAlgorithm.RS256 }
    samplePKey { n := [2], e := [3] } "-----BEGIN PUBLIC KEY-----"
    [46, 46, 46] [46, 46, 46, 46] [46, 46, 46, 97]
    rfl rfl rfl rfl rfl rfl rfl rfl (by decide) rfl rfl rfl rfl rfl
  exact ⟨h.1, h.2.1, h.2.2.2.1, h.2.2.2.2.1 rfl, h.2.2.2.2.2⟩
